import Mathlib

/-!
Verification of the COREP Own Funds validation engine.

The repository embeds the same validator twice: `COREPEngine.validate_response`
in `corep_engine.py` and `COREPAssistant.validate_response` in `main.py`.
We model the JSON-like Python values the validator receives, the Python
primitive operations it uses (`dict.get`, `in`, indexing, `.items()`,
truthiness, `str()`, `int()`, the regex `^-?\d+$`, and the `:,` comma
format), and then the two validator functions themselves, faithfully
including every exception path (`AttributeError`, `TypeError`, `KeyError`,
`ValueError`) and the `try ... except ValueError` around the arithmetic
block.
-/

/-- A JSON-like Python value as handled by the validator: strings, ints,
booleans, `None`, lists and string-keyed dicts (insertion ordered). -/
inductive PyVal where
  | str (s : String)
  | int (n : Int)
  | bool (b : Bool)
  | null
  | list (xs : List PyVal)
  | dict (kvs : List (String × PyVal))

/-- The Python exceptions the validator can raise, with their messages. -/
inductive PyExn where
  | valueError (msg : String)
  | typeError (msg : String)
  | attributeError (msg : String)
  | keyError (key : String)
deriving Repr, DecidableEq

/-- Verdict shape returned by `validate_response`: the dict
`{errors, warnings, is_valid}`. -/
structure Verdict where
  errors : List String
  warnings : List String
  is_valid : Bool
deriving Repr, DecidableEq

/-- Lookup in an insertion-ordered dict (first binding wins). -/
def dictLookup (kvs : List (String × PyVal)) (k : String) : Option PyVal :=
  (kvs.find? (fun kv => kv.1 == k)).map Prod.snd

/-- Python truthiness of a value (`bool(v)`). -/
def pyTruthy : PyVal → Bool
  | .str s => !s.isEmpty
  | .int n => n != 0
  | .bool b => b
  | .null => false
  | .list xs => !xs.isEmpty
  | .dict kvs => !kvs.isEmpty

/-- Python type name, as used in exception messages. -/
def pyTypeName : PyVal → String
  | .str _ => "str"
  | .int _ => "int"
  | .bool _ => "bool"
  | .null => "NoneType"
  | .list _ => "list"
  | .dict _ => "dict"

mutual
/-- Python `repr` of a value.  For strings we always use single quotes and do
not escape (the validator only feeds messages with quote-free payloads
through `repr`, where this agrees with Python). -/
def pyRepr : PyVal → String
  | .str s => "'" ++ s ++ "'"
  | .int n => toString n
  | .bool b => if b then "True" else "False"
  | .null => "None"
  | .list xs => "[" ++ pyReprList xs ++ "]"
  | .dict kvs => "\x7b" ++ pyReprKVs kvs ++ "\x7d"

/-- Comma-separated reprs of list elements. -/
def pyReprList : List PyVal → String
  | [] => ""
  | [x] => pyRepr x
  | x :: y :: xs => pyRepr x ++ ", " ++ pyReprList (y :: xs)

/-- Comma-separated reprs of dict items. -/
def pyReprKVs : List (String × PyVal) → String
  | [] => ""
  | [(k, v)] => "'" ++ k ++ "': " ++ pyRepr v
  | (k, v) :: p :: kvs => "'" ++ k ++ "': " ++ pyRepr v ++ ", " ++ pyReprKVs (p :: kvs)
end

/-- Python `str()` of a value. -/
def pyStr : PyVal → String
  | .str s => s
  | .int n => toString n
  | .bool b => if b then "True" else "False"
  | .null => "None"
  | .list xs => "[" ++ pyReprList xs ++ "]"
  | .dict kvs => "\x7b" ++ pyReprKVs kvs ++ "\x7d"

/-- ASCII decimal digit (the inputs contain only ASCII, so we model the regex
class `\d` and `int()` digits as ASCII digits). -/
def isPyDigit (c : Char) : Bool := '0' ≤ c && c ≤ '9'

/-- ASCII whitespace stripped by `int()` around a numeric literal. -/
def isPySpace (c : Char) : Bool :=
  c == ' ' || c == '\t' || c == '\n' || c == '\r' || c == '\x0b' || c == '\x0c'

/-- Digits of an `int()` literal after the first digit: further digits with
single underscores allowed only between digits. -/
def digitsVal : List Char → Nat → Option Nat
  | [], acc => some acc
  | c :: cs, acc =>
    if isPyDigit c then digitsVal cs (acc * 10 + (c.toNat - 48))
    else if c == '_' then
      match cs with
      | c2 :: cs2 =>
        if isPyDigit c2 then digitsVal cs2 (acc * 10 + (c2.toNat - 48)) else none
      | [] => none
    else none

/-- Unsigned part of an `int()` literal: one leading digit then `digitsVal`. -/
def parseUnsigned : List Char → Option Nat
  | [] => none
  | c :: cs => if isPyDigit c then digitsVal cs (c.toNat - 48) else none

/-- Python `int(s)` on a string: strip whitespace, optional sign, digits with
single underscores between digits.  `none` models `ValueError`. -/
def parseIntPy (s : String) : Option Int :=
  let cs := ((s.data.dropWhile isPySpace).reverse.dropWhile isPySpace).reverse
  match cs with
  | '+' :: rest => (parseUnsigned rest).map Int.ofNat
  | '-' :: rest => (parseUnsigned rest).map (fun n => -(n : Int))
  | rest => (parseUnsigned rest).map Int.ofNat

/-- Python `int(v)` for the value shapes the validator can meet. -/
def pyInt : PyVal → Except PyExn Int
  | .int n => .ok n
  | .bool b => .ok (if b then 1 else 0)
  | .str s =>
    match parseIntPy s with
    | some n => .ok n
    | none => .error (.valueError ("invalid literal for int() with base 10: " ++ pyRepr (.str s)))
  | v => .error (.typeError ("int() argument must be a string, a bytes-like object or a real number, not '" ++ pyTypeName v ++ "'"))

/-- The Python regex test `re.match(r'^-?\d+$', s)`: an optional minus sign
then one or more digits; `$` also matches just before one newline at the very
end of the string. -/
def matchesNumRe (s : String) : Bool :=
  let cs := if s.data.getLast? == some '\n' then s.data.dropLast else s.data
  match cs with
  | '-' :: rest => !rest.isEmpty && rest.all isPyDigit
  | rest => !rest.isEmpty && rest.all isPyDigit

/-- Insert a comma after every third character of a reversed digit list. -/
def commaGroupRev : List Char → List Char
  | a :: b :: c :: d :: rest => a :: b :: c :: ',' :: commaGroupRev (d :: rest)
  | l => l

/-- Python format `f"{n:,}"` for an int: decimal digits grouped in threes by
commas, with the sign outside the grouping. -/
def commaFormat (n : Int) : String :=
  (if n < 0 then "-" else "")
    ++ String.mk ((commaGroupRev (toString n.natAbs).data.reverse).reverse)

/-- Python `v.get(k, d)`: only dicts have `.get`; anything else raises
`AttributeError`. -/
def pyGetD (v : PyVal) (k : String) (d : PyVal) : Except PyExn PyVal :=
  match v with
  | .dict kvs => .ok ((dictLookup kvs k).getD d)
  | w => .error (.attributeError ("'" ++ pyTypeName w ++ "' object has no attribute 'get'"))

/-- Does the character list `needle` start the character list `hay`? -/
def charsStartWith : List Char → List Char → Bool
  | [], _ => true
  | _ :: _, [] => false
  | c :: cs, d :: ds => c == d && charsStartWith cs ds

/-- Does `needle` occur contiguously inside `hay`? -/
def charsContain (needle : List Char) : List Char → Bool
  | [] => needle.isEmpty
  | d :: ds => charsStartWith needle (d :: ds) || charsContain needle ds

/-- Python `k in v` for a string key: dict key membership, list membership,
substring test on strings; other values raise `TypeError`. -/
def pyContains (k : String) : PyVal → Except PyExn Bool
  | .dict kvs => .ok (kvs.any (fun kv => kv.1 == k))
  | .list xs => .ok (xs.any (fun x => match x with | .str t => k == t | _ => false))
  | .str s => .ok (charsContain k.data s.data)
  | v => .error (.typeError ("argument of type '" ++ pyTypeName v ++ "' is not iterable"))

/-- Python `v[k]` for a string key `k`: dict lookup (KeyError when absent);
lists and strings reject string indices with `TypeError`. -/
def pyIndex (v : PyVal) (k : String) : Except PyExn PyVal :=
  match v with
  | .dict kvs =>
    match dictLookup kvs k with
    | some x => .ok x
    | none => .error (.keyError k)
  | .list _ => .error (.typeError "list indices must be integers or slices, not str")
  | .str _ => .error (.typeError "string indices must be integers, not 'str'")
  | w => .error (.typeError ("'" ++ pyTypeName w ++ "' object is not subscriptable"))

/-- Python `v.items()`: only dicts have `.items`. -/
def pyItems : PyVal → Except PyExn (List (String × PyVal))
  | .dict kvs => .ok kvs
  | v => .error (.attributeError ("'" ++ pyTypeName v ++ "' object has no attribute 'items'"))

/-- The f-string `f"Missing required field: {field_code}"`. -/
def missingMsg (code : String) : String := "Missing required field: " ++ code

/-- The f-string `f"Empty value for field: {field_code}"`. -/
def emptyMsg (code : String) : String := "Empty value for field: " ++ code

/-- The f-string `f"Non-numeric value in field {field_code}: {value}"`
(the `{value}` interpolation applies `str`). -/
def nonNumMsg (code : String) (value : String) : String :=
  "Non-numeric value in field " ++ code ++ ": " ++ value

/-- The f-string
`f"CET1 calculation mismatch: Calculated {calculated_cet1:,} vs Reported {reported_cet1:,}"`. -/
def mismatchMsg (calculated reported : Int) : String :=
  "CET1 calculation mismatch: Calculated " ++ commaFormat calculated
    ++ " vs Reported " ++ commaFormat reported

/-- The f-string `f"CET1 is negative: {reported_cet1:,}"`. -/
def negMsg (reported : Int) : String := "CET1 is negative: " ++ commaFormat reported

/-- The f-string `f"Calculation error: {e}"` (interpolating the `ValueError`
message). -/
def calcWarnMsg (msg : String) : String := "Calculation error: " ++ msg

namespace COREPEngine

/-- The list `required_fields = ["010", "020", "030", "100"]` (corep_engine.py line 160). -/
def required_fields : List String := ["010", "020", "030", "100"]

/-- The required-fields loop of `COREPEngine.validate_response`
(corep_engine.py lines 161-165), returning the accumulated
(errors, warnings) in emission order. -/
def checkRequired (llm_data : PyVal) : List String → Except PyExn (List String × List String)
  | [] => .ok ([], [])
  | code :: rest => do
    let d ← pyGetD llm_data "data" (.dict [])
    let mem ← pyContains code d
    if !mem then
      let (es, ws) ← checkRequired llm_data rest
      pure (missingMsg code :: es, ws)
    else
      let inner ← pyIndex llm_data "data"
      let entry ← pyIndex inner code
      let v ← pyGetD entry "value" .null
      if !pyTruthy v then
        let (es, ws) ← checkRequired llm_data rest
        pure (es, emptyMsg code :: ws)
      else
        checkRequired llm_data rest

/-- The data-type loop body of `validate_response` (corep_engine.py lines
168-171): per item, `value = field_data.get("value", "")` then warn when the
value is truthy and `str(value)` fails the numeric regex. -/
def checkNumeric : List (String × PyVal) → Except PyExn (List String)
  | [] => .ok []
  | (code, fd) :: rest => do
    let v ← pyGetD fd "value" (.str "")
    let ws ← checkNumeric rest
    if pyTruthy v && !matchesNumRe (pyStr v) then
      pure (nonNumMsg code (pyStr v) :: ws)
    else
      pure ws

/-- One iteration of the summation loops (corep_engine.py lines 180-191):
`if code in data: val_str = data[code].get("value", "0"); if val_str:
total += int(val_str)`; an absent or falsy value contributes 0. -/
def fieldContrib (data : PyVal) (code : String) : Except PyExn Int := do
  let mem ← pyContains code data
  if mem then
    let entry ← pyIndex data code
    let v ← pyGetD entry "value" (.str "0")
    if pyTruthy v then pyInt v else pure 0
  else
    pure 0

/-- Sum the contributions of a list of field codes, in loop order. -/
def sumFields (data : PyVal) : List String → Except PyExn Int
  | [] => pure 0
  | code :: rest => do
    let n ← fieldContrib data code
    let s ← sumFields data rest
    pure (n + s)

/-- The `components` sum of corep_engine.py lines 180-184. -/
def componentsSum (data : PyVal) : Except PyExn Int :=
  sumFields data ["010", "020", "030", "040"]

/-- The `deductions` sum of corep_engine.py lines 187-191. -/
def deductionsSum (data : PyVal) : Except PyExn Int :=
  sumFields data ["070"]

/-- The `reported_cet1` value of corep_engine.py lines 196-197:
`data.get("100", {}).get("value", "0")` parsed when truthy, else 0. -/
def reportedCet1 (data : PyVal) : Except PyExn Int := do
  let entry ← pyGetD data "100" (.dict [])
  let v ← pyGetD entry "value" (.str "0")
  if pyTruthy v then pyInt v else pure 0

/-- The body of the `try:` block (corep_engine.py lines 174-204): the CET1
reconciliation and negativity checks, yielding the errors they emit. -/
def calcBlock (llm_data : PyVal) : Except PyExn (List String) := do
  let data ← pyGetD llm_data "data" (.dict [])
  let components ← componentsSum data
  let deductions ← deductionsSum data
  let calculated := components - deductions
  let reported ← reportedCet1 data
  let e1 := if calculated ≠ reported then [mismatchMsg calculated reported] else []
  let e2 := if reported < 0 then [negMsg reported] else []
  pure (e1 ++ e2)

/-- The `try ... except ValueError as e` wrapper (corep_engine.py lines
174-207): a `ValueError` from anywhere in the block is converted into the
single warning `"Calculation error: <e>"`; other exceptions propagate. -/
def tryCalc (llm_data : PyVal) : Except PyExn (List String × List String) :=
  match calcBlock llm_data with
  | .ok errs => .ok (errs, [])
  | .error (.valueError msg) => .ok ([], [calcWarnMsg msg])
  | .error e => .error e

/-- The function `COREPEngine.validate_response` (corep_engine.py lines 154-213). -/
def validate_response (llm_data : PyVal) : Except PyExn Verdict := do
  let (errs1, warns1) ← checkRequired llm_data required_fields
  let d ← pyGetD llm_data "data" (.dict [])
  let items ← pyItems d
  let warns2 ← checkNumeric items
  let (errs3, warns3) ← tryCalc llm_data
  let errors := errs1 ++ errs3
  let warnings := warns1 ++ warns2 ++ warns3
  pure { errors := errors, warnings := warnings, is_valid := errors.length == 0 }

end COREPEngine

namespace COREPAssistant

/-- The list `required_fields = ["010", "020", "030", "100"]` (main.py line 137). -/
def required_fields : List String := ["010", "020", "030", "100"]

/-- The required-fields loop of `COREPAssistant.validate_response`
(main.py lines 138-142). -/
def checkRequired (llm_data : PyVal) : List String → Except PyExn (List String × List String)
  | [] => .ok ([], [])
  | code :: rest => do
    let d ← pyGetD llm_data "data" (.dict [])
    let mem ← pyContains code d
    if !mem then
      let (es, ws) ← checkRequired llm_data rest
      pure (missingMsg code :: es, ws)
    else
      let inner ← pyIndex llm_data "data"
      let entry ← pyIndex inner code
      let v ← pyGetD entry "value" .null
      if !pyTruthy v then
        let (es, ws) ← checkRequired llm_data rest
        pure (es, emptyMsg code :: ws)
      else
        checkRequired llm_data rest

/-- The data-type loop of `COREPAssistant.validate_response`
(main.py lines 145-148). -/
def checkNumeric : List (String × PyVal) → Except PyExn (List String)
  | [] => .ok []
  | (code, fd) :: rest => do
    let v ← pyGetD fd "value" (.str "")
    let ws ← checkNumeric rest
    if pyTruthy v && !matchesNumRe (pyStr v) then
      pure (nonNumMsg code (pyStr v) :: ws)
    else
      pure ws

/-- One iteration of the summation loops (main.py lines 157-168). -/
def fieldContrib (data : PyVal) (code : String) : Except PyExn Int := do
  let mem ← pyContains code data
  if mem then
    let entry ← pyIndex data code
    let v ← pyGetD entry "value" (.str "0")
    if pyTruthy v then pyInt v else pure 0
  else
    pure 0

/-- Sum the contributions of a list of field codes, in loop order. -/
def sumFields (data : PyVal) : List String → Except PyExn Int
  | [] => pure 0
  | code :: rest => do
    let n ← fieldContrib data code
    let s ← sumFields data rest
    pure (n + s)

/-- The `components` sum of main.py lines 157-161. -/
def componentsSum (data : PyVal) : Except PyExn Int :=
  sumFields data ["010", "020", "030", "040"]

/-- The `deductions` sum of main.py lines 164-168. -/
def deductionsSum (data : PyVal) : Except PyExn Int :=
  sumFields data ["070"]

/-- The `reported_cet1` value of main.py lines 173-174. -/
def reportedCet1 (data : PyVal) : Except PyExn Int := do
  let entry ← pyGetD data "100" (.dict [])
  let v ← pyGetD entry "value" (.str "0")
  if pyTruthy v then pyInt v else pure 0

/-- The body of the `try:` block (main.py lines 151-181). -/
def calcBlock (llm_data : PyVal) : Except PyExn (List String) := do
  let data ← pyGetD llm_data "data" (.dict [])
  let components ← componentsSum data
  let deductions ← deductionsSum data
  let calculated := components - deductions
  let reported ← reportedCet1 data
  let e1 := if calculated ≠ reported then [mismatchMsg calculated reported] else []
  let e2 := if reported < 0 then [negMsg reported] else []
  pure (e1 ++ e2)

/-- The `try ... except ValueError as e` wrapper (main.py lines 151-184). -/
def tryCalc (llm_data : PyVal) : Except PyExn (List String × List String) :=
  match calcBlock llm_data with
  | .ok errs => .ok (errs, [])
  | .error (.valueError msg) => .ok ([], [calcWarnMsg msg])
  | .error e => .error e

/-- The function `COREPAssistant.validate_response` (main.py lines 130-190). -/
def validate_response (llm_data : PyVal) : Except PyExn Verdict := do
  let (errs1, warns1) ← checkRequired llm_data required_fields
  let d ← pyGetD llm_data "data" (.dict [])
  let items ← pyItems d
  let warns2 ← checkNumeric items
  let (errs3, warns3) ← tryCalc llm_data
  let errors := errs1 ++ errs3
  let warnings := warns1 ++ warns2 ++ warns3
  pure { errors := errors, warnings := warnings, is_valid := errors.length == 0 }

end COREPAssistant

section Infrastructure

@[simp]
theorem exceptBindOk {α β : Type} (a : α) (k : α → Except PyExn β) :
    (Except.ok a >>= k) = k a := rfl

@[simp]
theorem exceptBindErr {α β : Type} (e : PyExn) (k : α → Except PyExn β) :
    ((Except.error e : Except PyExn α) >>= k) = Except.error e := rfl

theorem stringDataInj {s t : String} (h : s.data = t.data) : s = t := by
  cases s
  cases t
  exact congrArg String.mk h

theorem strAppendCancel {p a b : String} (h : p ++ a = p ++ b) : a = b := by
  apply stringDataInj
  have h2 := congrArg String.data h
  rw [String.data_append, String.data_append] at h2
  exact List.append_cancel_left h2

/-- The first character of a string, used to tell the verdict message families
apart. -/
def strHead (s : String) : Option Char := s.data.head?

theorem strHeadAppendLit {p : String} {c : Char} {t : List Char}
    (hp : p.data = c :: t) (a : String) : strHead (p ++ a) = some c := by
  unfold strHead
  rw [String.data_append, hp]
  rfl

theorem strHeadAppendOfHead {s : String} {c : Char} (h : strHead s = some c)
    (t : String) : strHead (s ++ t) = some c := by
  unfold strHead at h ⊢
  rw [String.data_append]
  cases hs : s.data with
  | nil => rw [hs] at h; cases h
  | cons a l => rw [hs] at h; simpa using h

theorem neOfStrHead {s t : String} {c d : Char} (hs : strHead s = some c)
    (ht : strHead t = some d) (hcd : c ≠ d) : s ≠ t := by
  intro h
  rw [h] at hs
  rw [hs] at ht
  exact hcd (Option.some.inj ht)

theorem strHeadMissing (c : String) : strHead (missingMsg c) = some 'M' :=
  strHeadAppendLit rfl c

theorem strHeadEmpty (c : String) : strHead (emptyMsg c) = some 'E' :=
  strHeadAppendLit rfl c

theorem strHeadNonNum (c v : String) : strHead (nonNumMsg c v) = some 'N' :=
  strHeadAppendOfHead (strHeadAppendOfHead (strHeadAppendLit rfl c) ": ") v

theorem strHeadMismatch (a b : Int) : strHead (mismatchMsg a b) = some 'C' :=
  strHeadAppendOfHead (strHeadAppendOfHead
    (strHeadAppendLit rfl (commaFormat a)) " vs Reported ") (commaFormat b)

theorem strHeadNeg (r : Int) : strHead (negMsg r) = some 'C' :=
  strHeadAppendLit rfl (commaFormat r)

theorem strHeadCalcWarn (m : String) : strHead (calcWarnMsg m) = some 'C' :=
  strHeadAppendLit rfl m

theorem missingMsgInj : Function.Injective missingMsg := by
  intro a b h
  exact strAppendCancel h

theorem emptyMsgInj : Function.Injective emptyMsg := by
  intro a b h
  exact strAppendCancel h

theorem missingNeMismatch (c : String) (a b : Int) : missingMsg c ≠ mismatchMsg a b :=
  neOfStrHead (strHeadMissing c) (strHeadMismatch a b) (by decide)

theorem missingNeNeg (c : String) (r : Int) : missingMsg c ≠ negMsg r :=
  neOfStrHead (strHeadMissing c) (strHeadNeg r) (by decide)

theorem emptyNeNonNum (c a v : String) : emptyMsg c ≠ nonNumMsg a v :=
  neOfStrHead (strHeadEmpty c) (strHeadNonNum a v) (by decide)

theorem emptyNeCalcWarn (c m : String) : emptyMsg c ≠ calcWarnMsg m :=
  neOfStrHead (strHeadEmpty c) (strHeadCalcWarn m) (by decide)

theorem dictLookupMemCode {entries : List (String × PyVal)} {c : String} {x : PyVal}
    (h : dictLookup entries c = some x) : entries.any (fun kv => kv.1 == c) = true := by
  unfold dictLookup at h
  cases hf : entries.find? (fun kv => kv.1 == c) with
  | none => rw [hf] at h; cases h
  | some kv =>
    have h1 := List.find?_some hf
    exact List.any_eq_true.mpr ⟨kv, List.mem_of_find?_eq_some hf, h1⟩

theorem memCodeDictLookup {entries : List (String × PyVal)} {c : String}
    (h : entries.any (fun kv => kv.1 == c) = true) : ∃ x, dictLookup entries c = some x := by
  obtain ⟨kv, hmem, hp⟩ := List.any_eq_true.mp h
  have : (entries.find? (fun kv => kv.1 == c)).isSome :=
    List.find?_isSome.mpr ⟨kv, hmem, hp⟩
  obtain ⟨kv', hkv'⟩ := Option.isSome_iff_exists.mp this
  exact ⟨kv'.2, by unfold dictLookup; rw [hkv']; rfl⟩

theorem parseIntPyTruthy {s : String} {n : Int} (h : parseIntPy s = some n) :
    pyTruthy (.str s) = true := by
  show (!s.isEmpty) = true
  cases he : s.isEmpty with
  | false => rfl
  | true =>
    rw [(String.isEmpty_iff s).mp he] at h
    cases h

end Infrastructure

section Characterization

/-- Key membership in a populated-data mapping (characterization helper). -/
def memCode (entries : List (String × PyVal)) (c : String) : Bool :=
  entries.any (fun kv => kv.1 == c)

/-- The value slot `data[c].get("value")` of a well-shaped entry
(characterization helper; the fallback is unreachable in the lemmas that use
it). -/
def entryValueD (entries : List (String × PyVal)) (c : String) : PyVal :=
  match dictLookup entries c with
  | some (.dict fkvs) => (dictLookup fkvs "value").getD .null
  | _ => .null

/-- The warning pass 2 generates for one populated field, if any
(characterization helper). -/
def pass2Gen (p : String × PyVal) : Option String :=
  match p.2 with
  | .dict fkvs =>
    if pyTruthy ((dictLookup fkvs "value").getD (.str ""))
        && !matchesNumRe (pyStr ((dictLookup fkvs "value").getD (.str ""))) then
      some (nonNumMsg p.1 (pyStr ((dictLookup fkvs "value").getD (.str ""))))
    else none
  | _ => none

theorem checkRequiredSpec {kvs entries : List (String × PyVal)}
    (hdata : dictLookup kvs "data" = some (.dict entries)) (codes : List String) :
    ∀ es ws, COREPEngine.checkRequired (.dict kvs) codes = .ok (es, ws) →
      es = (codes.filter (fun c => !memCode entries c)).map missingMsg ∧
      ws = (codes.filter (fun c => memCode entries c
              && !pyTruthy (entryValueD entries c))).map emptyMsg := by
  induction codes with
  | nil =>
    intro es ws h
    simp [COREPEngine.checkRequired] at h
    simp [h.1, h.2]
  | cons code rest ih =>
    intro es ws h
    rw [COREPEngine.checkRequired] at h
    simp only [pyGetD, hdata, Option.getD_some, exceptBindOk, pyContains] at h
    cases hm : memCode entries code with
    | false =>
      rw [show (entries.any fun kv => kv.1 == code) = false from hm] at h
      simp only [Bool.not_false, if_true, exceptBindOk] at h
      cases hr : COREPEngine.checkRequired (.dict kvs) rest with
      | error e => rw [hr] at h; simp at h
      | ok p =>
        obtain ⟨es', ws'⟩ := p
        rw [hr] at h
        simp only [exceptBindOk, pure, Except.pure, Except.ok.injEq, Prod.mk.injEq] at h
        obtain ⟨he, hw⟩ := h
        obtain ⟨ihe, ihw⟩ := ih es' ws' hr
        subst he hw
        simp [List.filter_cons, hm, ihe, ihw]
    | true =>
      rw [show (entries.any fun kv => kv.1 == code) = true from hm] at h
      simp only [Bool.not_true, if_false, Bool.false_eq_true, exceptBindOk] at h
      obtain ⟨x, hx⟩ := memCodeDictLookup hm
      simp only [pyIndex, hdata, hx, exceptBindOk] at h
      cases x with
      | dict fkvs =>
        simp only [pyGetD, exceptBindOk] at h
        have hev : entryValueD entries code = (dictLookup fkvs "value").getD .null := by
          simp [entryValueD, hx]
        cases ht : pyTruthy ((dictLookup fkvs "value").getD .null) with
        | true =>
          rw [ht] at h
          simp only [Bool.not_true, if_false, Bool.false_eq_true] at h
          obtain ⟨ihe, ihw⟩ := ih es ws h
          simp [List.filter_cons, hm, hev, ht, ihe, ihw]
        | false =>
          rw [ht] at h
          simp only [Bool.not_false, if_true, exceptBindOk] at h
          cases hr : COREPEngine.checkRequired (.dict kvs) rest with
          | error e => rw [hr] at h; simp at h
          | ok p =>
            obtain ⟨es', ws'⟩ := p
            rw [hr] at h
            simp only [exceptBindOk, pure, Except.pure, Except.ok.injEq, Prod.mk.injEq] at h
            obtain ⟨he, hw⟩ := h
            obtain ⟨ihe, ihw⟩ := ih es' ws' hr
            subst he hw
            simp [List.filter_cons, hm, hev, ht, ihe, ihw]
      | str s => simp [pyGetD] at h
      | int n => simp [pyGetD] at h
      | bool b => simp [pyGetD] at h
      | null => simp [pyGetD] at h
      | list xs => simp [pyGetD] at h

end Characterization

section Characterization2

theorem checkNumericSpec (items : List (String × PyVal)) :
    ∀ ws, COREPEngine.checkNumeric items = .ok ws → ws = items.filterMap pass2Gen := by
  induction items with
  | nil =>
    intro ws h
    simp [COREPEngine.checkNumeric] at h
    simp [h]
  | cons p rest ih =>
    obtain ⟨code, fd⟩ := p
    intro ws h
    rw [COREPEngine.checkNumeric] at h
    cases fd with
    | dict fkvs =>
      simp only [pyGetD, exceptBindOk] at h
      cases hr : COREPEngine.checkNumeric rest with
      | error e => rw [hr] at h; simp at h
      | ok ws' =>
        rw [hr] at h
        simp only [exceptBindOk] at h
        have ihw := ih ws' hr
        cases hc : pyTruthy ((dictLookup fkvs "value").getD (.str ""))
            && !matchesNumRe (pyStr ((dictLookup fkvs "value").getD (.str ""))) with
        | true =>
          rw [hc] at h
          simp only [if_true, pure, Except.pure, Except.ok.injEq] at h
          subst h
          simp [List.filterMap_cons, pass2Gen, hc, ihw]
        | false =>
          rw [hc] at h
          simp only [Bool.false_eq_true, if_false, pure, Except.pure, Except.ok.injEq] at h
          subst h
          simp [List.filterMap_cons, pass2Gen, hc, ihw]
    | str s => simp [pyGetD] at h
    | int n => simp [pyGetD] at h
    | bool b => simp [pyGetD] at h
    | null => simp [pyGetD] at h
    | list xs => simp [pyGetD] at h

theorem checkNumericWf (items : List (String × PyVal))
    (hwf : ∀ p ∈ items, ∃ fkvs, p.2 = PyVal.dict fkvs) :
    COREPEngine.checkNumeric items = .ok (items.filterMap pass2Gen) := by
  induction items with
  | nil => simp [COREPEngine.checkNumeric]
  | cons p rest ih =>
    obtain ⟨code, fd⟩ := p
    obtain ⟨fkvs, hfd⟩ := hwf (code, fd) (by simp)
    subst hfd
    have ihr := ih (fun q hq => hwf q (by simp [hq]))
    rw [COREPEngine.checkNumeric]
    simp only [pyGetD, exceptBindOk, ihr]
    cases hc : pyTruthy ((dictLookup fkvs "value").getD (.str ""))
        && !matchesNumRe (pyStr ((dictLookup fkvs "value").getD (.str ""))) with
    | true => simp [List.filterMap_cons, pass2Gen, hc, pure, Except.pure]
    | false => simp [List.filterMap_cons, pass2Gen, hc, pure, Except.pure]

theorem tryCalcErrShape {l : PyVal} {ce cw : List String}
    (h : COREPEngine.tryCalc l = .ok (ce, cw)) :
    ∀ x ∈ ce, (∃ a b, x = mismatchMsg a b) ∨ (∃ r, x = negMsg r) := by
  unfold COREPEngine.tryCalc at h
  cases hcb : COREPEngine.calcBlock l with
  | ok errs =>
    rw [hcb] at h
    simp only [Except.ok.injEq, Prod.mk.injEq] at h
    obtain ⟨hce, -⟩ := h
    subst hce
    unfold COREPEngine.calcBlock at hcb
    cases h1 : pyGetD l "data" (.dict []) with
    | error e => rw [h1] at hcb; simp at hcb
    | ok data =>
      rw [h1] at hcb
      simp only [exceptBindOk] at hcb
      cases h2 : COREPEngine.componentsSum data with
      | error e => rw [h2] at hcb; simp at hcb
      | ok comps =>
        rw [h2] at hcb
        simp only [exceptBindOk] at hcb
        cases h3 : COREPEngine.deductionsSum data with
        | error e => rw [h3] at hcb; simp at hcb
        | ok ded =>
          rw [h3] at hcb
          simp only [exceptBindOk] at hcb
          cases h4 : COREPEngine.reportedCet1 data with
          | error e => rw [h4] at hcb; simp at hcb
          | ok rep =>
            rw [h4] at hcb
            simp only [exceptBindOk, pure, Except.pure, Except.ok.injEq] at hcb
            subst hcb
            intro x hx
            rw [List.mem_append] at hx
            rcases hx with hx | hx
            · split at hx
              · left
                exact ⟨comps - ded, rep, by simpa using hx⟩
              · simp at hx
            · split at hx
              · right
                exact ⟨rep, by simpa using hx⟩
              · simp at hx
  | error e =>
    rw [hcb] at h
    cases e with
    | valueError m =>
      simp only [Except.ok.injEq, Prod.mk.injEq] at h
      obtain ⟨hce, -⟩ := h
      subst hce
      intro x hx
      simp at hx
    | typeError m => simp at h
    | attributeError m => simp at h
    | keyError k => simp at h

theorem tryCalcWarnShape {l : PyVal} {ce cw : List String}
    (h : COREPEngine.tryCalc l = .ok (ce, cw)) :
    cw = [] ∨ ∃ m, cw = [calcWarnMsg m] := by
  unfold COREPEngine.tryCalc at h
  cases hcb : COREPEngine.calcBlock l with
  | ok errs =>
    rw [hcb] at h
    simp only [Except.ok.injEq, Prod.mk.injEq] at h
    exact Or.inl h.2.symm
  | error e =>
    rw [hcb] at h
    cases e with
    | valueError m =>
      simp only [Except.ok.injEq, Prod.mk.injEq] at h
      exact Or.inr ⟨m, h.2.symm⟩
    | typeError m => simp at h
    | attributeError m => simp at h
    | keyError k => simp at h

theorem validateDecomp {l : PyVal} {v : Verdict}
    (h : COREPEngine.validate_response l = .ok v) :
    ∃ e1 w1 d items w2 ce cw,
      COREPEngine.checkRequired l COREPEngine.required_fields = .ok (e1, w1) ∧
      pyGetD l "data" (.dict []) = .ok d ∧
      pyItems d = .ok items ∧
      COREPEngine.checkNumeric items = .ok w2 ∧
      COREPEngine.tryCalc l = .ok (ce, cw) ∧
      v = ⟨e1 ++ ce, w1 ++ w2 ++ cw, (e1 ++ ce).length == 0⟩ := by
  unfold COREPEngine.validate_response at h
  cases h1 : COREPEngine.checkRequired l COREPEngine.required_fields with
  | error e => rw [h1] at h; simp at h
  | ok p1 =>
    obtain ⟨e1, w1⟩ := p1
    rw [h1] at h
    simp only [exceptBindOk] at h
    cases h2 : pyGetD l "data" (.dict []) with
    | error e => rw [h2] at h; simp at h
    | ok d =>
      rw [h2] at h
      simp only [exceptBindOk] at h
      cases h3 : pyItems d with
      | error e => rw [h3] at h; simp at h
      | ok items =>
        rw [h3] at h
        simp only [exceptBindOk] at h
        cases h4 : COREPEngine.checkNumeric items with
        | error e => rw [h4] at h; simp at h
        | ok w2 =>
          rw [h4] at h
          simp only [exceptBindOk] at h
          cases h5 : COREPEngine.tryCalc l with
          | error e => rw [h5] at h; simp at h
          | ok p5 =>
            obtain ⟨ce, cw⟩ := p5
            rw [h5] at h
            simp only [exceptBindOk, pure, Except.pure, Except.ok.injEq] at h
            refine ⟨e1, w1, d, items, w2, ce, cw, ?_, ?_, ?_, ?_, ?_, h.symm⟩ <;>
              first | rfl | assumption

end Characterization2

section SuccessPath

theorem fieldContribOfParse {entries fkvs : List (String × PyVal)} {s : String} {n : Int}
    (code : String)
    (hl : dictLookup entries code = some (.dict fkvs))
    (hv : dictLookup fkvs "value" = some (.str s))
    (hp : parseIntPy s = some n) :
    COREPEngine.fieldContrib (.dict entries) code = .ok n := by
  unfold COREPEngine.fieldContrib
  simp only [pyContains, exceptBindOk]
  rw [show (entries.any fun kv => kv.1 == code) = true from dictLookupMemCode hl]
  simp only [if_true, pyIndex, hl, exceptBindOk, pyGetD, hv, Option.getD_some]
  rw [parseIntPyTruthy hp]
  simp [pyInt, hp]

theorem reportedCet1OfParse {entries fkvs : List (String × PyVal)} {s : String} {n : Int}
    (hl : dictLookup entries "100" = some (.dict fkvs))
    (hv : dictLookup fkvs "value" = some (.str s))
    (hp : parseIntPy s = some n) :
    COREPEngine.reportedCet1 (.dict entries) = .ok n := by
  unfold COREPEngine.reportedCet1
  simp only [pyGetD, hl, Option.getD_some, exceptBindOk, hv]
  rw [parseIntPyTruthy hp]
  simp [pyInt, hp]

theorem checkRequiredAllPresent {kvs entries : List (String × PyVal)}
    (hdata : dictLookup kvs "data" = some (.dict entries)) (codes : List String)
    (hpres : ∀ c ∈ codes, ∃ fkvs, dictLookup entries c = some (.dict fkvs)
      ∧ pyTruthy ((dictLookup fkvs "value").getD .null) = true) :
    COREPEngine.checkRequired (.dict kvs) codes = .ok ([], []) := by
  induction codes with
  | nil => simp [COREPEngine.checkRequired]
  | cons code rest ih =>
    obtain ⟨fkvs, hl, ht⟩ := hpres code (by simp)
    rw [COREPEngine.checkRequired]
    simp only [pyGetD, hdata, Option.getD_some, exceptBindOk, pyContains]
    rw [show (entries.any fun kv => kv.1 == code) = true from dictLookupMemCode hl]
    simp only [Bool.not_true, Bool.false_eq_true, if_false, pyIndex, hdata, hl,
      exceptBindOk, pyGetD]
    rw [ht]
    simp only [Bool.not_true, Bool.false_eq_true, if_false]
    exact ih (fun c hc => hpres c (by simp [hc]))

end SuccessPath

section ClaimInputs

/-- A populated field holding a string value. -/
def fld (s : String) : PyVal := .dict [("value", .str s)]

/-- Data entries of the C1 scenario: field 010 is the unparsable `"abc"`,
the others are valid, and field 100 reports 999 (a blatant mismatch). -/
def inC1data : List (String × PyVal) :=
  [("010", fld "abc"), ("020", fld "1"), ("030", fld "1"),
   ("040", fld "1"), ("070", fld "0"), ("100", fld "999")]

/-- The C1 scenario template. -/
def inC1 : PyVal := .dict [("data", .dict inC1data)]

theorem checkRequiredNoData {kvs : List (String × PyVal)}
    (hl : dictLookup kvs "data" = none) (codes : List String) :
    COREPEngine.checkRequired (.dict kvs) codes = .ok (codes.map missingMsg, []) := by
  induction codes with
  | nil => simp [COREPEngine.checkRequired]
  | cons code rest ih =>
    rw [COREPEngine.checkRequired]
    simp [pyGetD, hl, pyContains, ih, pure, Except.pure]

end ClaimInputs

theorem fieldContribEq (d : PyVal) (c : String) :
    COREPAssistant.fieldContrib d c = COREPEngine.fieldContrib d c := rfl

theorem sumFieldsEq (d : PyVal) (codes : List String) :
    COREPAssistant.sumFields d codes = COREPEngine.sumFields d codes := by
  induction codes with
  | nil => rfl
  | cons c r ih => rw [COREPAssistant.sumFields, COREPEngine.sumFields, ih, fieldContribEq]

theorem componentsSumEq (d : PyVal) :
    COREPAssistant.componentsSum d = COREPEngine.componentsSum d := by
  unfold COREPAssistant.componentsSum COREPEngine.componentsSum
  rw [sumFieldsEq]

theorem deductionsSumEq (d : PyVal) :
    COREPAssistant.deductionsSum d = COREPEngine.deductionsSum d := by
  unfold COREPAssistant.deductionsSum COREPEngine.deductionsSum
  rw [sumFieldsEq]

theorem reportedCet1Eq (d : PyVal) :
    COREPAssistant.reportedCet1 d = COREPEngine.reportedCet1 d := rfl

theorem calcBlockEq (l : PyVal) :
    COREPAssistant.calcBlock l = COREPEngine.calcBlock l := by
  unfold COREPAssistant.calcBlock COREPEngine.calcBlock
  simp only [componentsSumEq, deductionsSumEq, reportedCet1Eq]

theorem tryCalcEq (l : PyVal) :
    COREPAssistant.tryCalc l = COREPEngine.tryCalc l := by
  unfold COREPAssistant.tryCalc COREPEngine.tryCalc
  rw [calcBlockEq]

theorem checkRequiredEq (l : PyVal) (codes : List String) :
    COREPAssistant.checkRequired l codes = COREPEngine.checkRequired l codes := by
  induction codes with
  | nil => rfl
  | cons c r ih => rw [COREPAssistant.checkRequired, COREPEngine.checkRequired, ih]

theorem checkNumericEq (items : List (String × PyVal)) :
    COREPAssistant.checkNumeric items = COREPEngine.checkNumeric items := by
  induction items with
  | nil => rfl
  | cons p r ih => rw [COREPAssistant.checkNumeric, COREPEngine.checkNumeric, ih]

/-- C10: the two embedded validators agree on every input: the validator of
`corep_engine.py` and the validator of `main.py` return identical outcomes
(same errors, same warnings, same validity flag, same exceptions). -/
theorem claim_C10_theorem :
    ∀ v : PyVal, COREPEngine.validate_response v = COREPAssistant.validate_response v := by
  intro v
  unfold COREPEngine.validate_response COREPAssistant.validate_response
  simp only [checkRequiredEq, checkNumericEq, tryCalcEq,
    COREPEngine.required_fields, COREPAssistant.required_fields]

/-- C6: whenever `validate_response` returns a verdict, `is_valid` equals the
emptiness of `errors`; in particular validity is a function of the errors list
alone, so the warnings never influence it. -/
theorem claim_C6_theorem (llm_data : PyVal) (v : Verdict)
    (h : COREPEngine.validate_response llm_data = .ok v) :
    v.is_valid = v.errors.isEmpty ∧ (v.is_valid = true ↔ v.errors = []) := by
  obtain ⟨e1, w1, d, items, w2, ce, cw, -, -, -, -, -, hv⟩ := validateDecomp h
  subst hv
  generalize e1 ++ ce = E
  constructor
  · cases E <;> rfl
  · cases E <;> simp

/-- Witness for C6 at the C1 scenario input. -/
theorem claim_C6_witness :
    (Verdict.mk [] ["Non-numeric value in field 010: abc",
      "Calculation error: invalid literal for int() with base 10: 'abc'"] true).is_valid
      = (Verdict.mk [] ["Non-numeric value in field 010: abc",
          "Calculation error: invalid literal for int() with base 10: 'abc'"] true).errors.isEmpty :=
  (claim_C6_theorem inC1 _ rfl).1

/-- C1 as written is false: with field 010 = "abc" (others valid, field 100 =
999), the claim demands that the pass-3 mismatch check still executes with the
bad field contributing 0 (calculated 3 vs reported 999, hence a mismatch error
and `is_valid == false`).  The code instead aborts the whole arithmetic block
on the first `ValueError`: no mismatch or negativity finding is produced,
`errors` stays empty and `is_valid` is true. -/
theorem claim_C1_counterexample :
    COREPEngine.validate_response inC1 =
      .ok ⟨[], ["Non-numeric value in field 010: abc",
                "Calculation error: invalid literal for int() with base 10: 'abc'"], true⟩ := rfl

/-- C1 amended: a numeric parse failure inside the arithmetic block does not
escape `validate_response` (given the earlier passes ran), but it is handled
by the handler around the whole block, not per field: the block is abandoned,
a single warning `"Calculation error: <msg>"` is appended after the other
warnings, the mismatch and negativity checks contribute nothing, and
`is_valid` is determined by the pass-1 errors alone. -/
theorem claim_C1_theorem (llm_data : PyVal) (msg : String) (e1 w1 : List String)
    (d : PyVal) (items : List (String × PyVal)) (w2 : List String)
    (h1 : COREPEngine.checkRequired llm_data COREPEngine.required_fields = .ok (e1, w1))
    (h2 : pyGetD llm_data "data" (.dict []) = .ok d)
    (h3 : pyItems d = .ok items)
    (h4 : COREPEngine.checkNumeric items = .ok w2)
    (hc : COREPEngine.calcBlock llm_data = .error (.valueError msg)) :
    COREPEngine.validate_response llm_data =
      .ok ⟨e1, w1 ++ w2 ++ [calcWarnMsg msg], e1.length == 0⟩ := by
  unfold COREPEngine.validate_response COREPEngine.tryCalc
  rw [h1]
  simp only [exceptBindOk]
  rw [h2]
  simp only [exceptBindOk]
  rw [h3]
  simp only [exceptBindOk]
  rw [h4]
  simp only [exceptBindOk]
  rw [hc]
  simp [pure, Except.pure]

/-- Witness for C1 amended at the C1 scenario input. -/
theorem claim_C1_witness :
    COREPEngine.validate_response inC1 =
      .ok ⟨[], ["Non-numeric value in field 010: abc",
                "Calculation error: invalid literal for int() with base 10: 'abc'"], true⟩ := by
  have h := claim_C1_theorem inC1 "invalid literal for int() with base 10: 'abc'"
    [] [] (.dict inC1data) inC1data ["Non-numeric value in field 010: abc"]
    rfl rfl rfl rfl rfl
  simpa [calcWarnMsg] using h

/-- The spec's notion of a well-formed populated-template mapping: a mapping
whose `data` member is present and is itself a mapping. -/
def specWellFormedB (v : PyVal) : Bool :=
  match v with
  | .dict kvs =>
    match dictLookup kvs "data" with
    | some (.dict _) => true
    | _ => false
  | _ => false

/-- C3 as written is false: the empty mapping is not a well-formed
populated-template mapping, yet `validate_response` happily returns a verdict
for it (with the four missing-field errors) instead of failing fast with a
distinguishable `InvalidInput` error kind. -/
theorem claim_C3_counterexample :
    specWellFormedB (.dict []) = false ∧
    COREPEngine.validate_response (.dict []) =
      .ok ⟨["Missing required field: 010", "Missing required field: 020",
            "Missing required field: 030", "Missing required field: 100"], [], false⟩ :=
  ⟨rfl, rfl⟩

/-- C3 amended: there is no `InvalidInput` error kind.  An input that is not a
mapping at all makes `validate_response` raise a built-in `AttributeError`
(no verdict); an input that is a mapping but lacks a well-formed `data`
mapping either raises or returns a verdict whose errors are non-empty — so
malformed input never yields a verdict with an empty errors list. -/
theorem claim_C3_theorem (v : PyVal) (verdict : Verdict) :
    ((∀ kvs, v ≠ PyVal.dict kvs) →
      ∃ m, COREPEngine.validate_response v = .error (.attributeError m)) ∧
    (COREPEngine.validate_response v = .ok verdict → specWellFormedB v = false →
      verdict.errors ≠ []) := by
  constructor
  · intro hnd
    cases v with
    | dict kvs => exact absurd rfl (hnd kvs)
    | str s => exact ⟨_, rfl⟩
    | int n => exact ⟨_, rfl⟩
    | bool b => exact ⟨_, rfl⟩
    | null => exact ⟨_, rfl⟩
    | list xs => exact ⟨_, rfl⟩
  · intro hok hwf
    obtain ⟨e1, w1, d, items, w2, ce, cw, h1, h2, h3, h4, h5, hv⟩ := validateDecomp hok
    cases v with
    | dict kvs =>
      cases d with
      | dict dkvs =>
        cases hl : dictLookup kvs "data" with
        | some x =>
          have hd : x = PyVal.dict dkvs := by
            simpa [pyGetD, hl] using h2
          rw [hd] at hl
          simp [specWellFormedB, hl] at hwf
        | none =>
          have hd : PyVal.dict dkvs = PyVal.dict ([] : List (String × PyVal)) := by
            have := h2
            simp only [pyGetD, hl, Option.getD_none, Except.ok.injEq] at this
            exact this.symm
          have h1' := checkRequiredNoData hl COREPEngine.required_fields
          rw [h1] at h1'
          simp only [Except.ok.injEq, Prod.mk.injEq] at h1'
          subst hv
          simp [h1'.1, COREPEngine.required_fields]
      | str s => simp [pyItems] at h3
      | int n => simp [pyItems] at h3
      | bool b => simp [pyItems] at h3
      | null => simp [pyItems] at h3
      | list xs => simp [pyItems] at h3
    | str s => simp [pyGetD] at h2
    | int n => simp [pyGetD] at h2
    | bool b => simp [pyGetD] at h2
    | null => simp [pyGetD] at h2
    | list xs => simp [pyGetD] at h2

/-- Witness for C3 amended: on the non-mapping input `None` the validator
raises `AttributeError` and returns no verdict. -/
theorem claim_C3_witness :
    ∃ m, COREPEngine.validate_response PyVal.null = .error (.attributeError m) :=
  (claim_C3_theorem PyVal.null ⟨[], [], true⟩).1 (fun _ h => PyVal.noConfusion h)

section FieldHelpers

/-- The spec's numeric pattern as worded: an optional leading minus sign
followed by one or more decimal digits only. -/
def specIntString (s : String) : Bool :=
  match s.data with
  | '-' :: rest => !rest.isEmpty && rest.all isPyDigit
  | rest => !rest.isEmpty && rest.all isPyDigit

/-- Is the value a dict? -/
def isDictVal : PyVal → Bool
  | .dict _ => true
  | _ => false

/-- Field `code` is present with a syntactically valid integer string value;
returns its parsed integer. -/
def fieldIntVal (entries : List (String × PyVal)) (code : String) : Option Int :=
  match dictLookup entries code with
  | some (.dict fkvs) =>
    match dictLookup fkvs "value" with
    | some (.str s) => if specIntString s then parseIntPy s else none
    | _ => none
  | _ => none

/-- Field `code` is present with a string value `int()` can parse; returns
its parsed integer. -/
def fieldIntParsed (entries : List (String × PyVal)) (code : String) : Option Int :=
  match dictLookup entries code with
  | some (.dict fkvs) =>
    match dictLookup fkvs "value" with
    | some (.str s) => parseIntPy s
    | _ => none
  | _ => none

theorem allDictVal {entries : List (String × PyVal)}
    (h : entries.all (fun p => isDictVal p.2) = true) :
    ∀ p ∈ entries, ∃ fkvs, p.2 = PyVal.dict fkvs := by
  intro p hp
  have hb := List.all_eq_true.mp h p hp
  cases hx : p.2 <;> rw [hx] at hb <;> first | exact ⟨_, rfl⟩ | simp [isDictVal] at hb

theorem fieldIntParsedInv {entries : List (String × PyVal)} {code : String} {n : Int}
    (h : fieldIntParsed entries code = some n) :
    ∃ fkvs s, dictLookup entries code = some (.dict fkvs) ∧
      dictLookup fkvs "value" = some (.str s) ∧ parseIntPy s = some n := by
  unfold fieldIntParsed at h
  split at h
  case _ fkvs heq =>
    split at h
    case _ s hv => exact ⟨fkvs, s, heq, hv, h⟩
    case _ => cases h
  case _ => cases h

theorem fieldIntValInv {entries : List (String × PyVal)} {code : String} {n : Int}
    (h : fieldIntVal entries code = some n) :
    ∃ fkvs s, dictLookup entries code = some (.dict fkvs) ∧
      dictLookup fkvs "value" = some (.str s) ∧
      specIntString s = true ∧ parseIntPy s = some n := by
  unfold fieldIntVal at h
  split at h
  case _ fkvs heq =>
    split at h
    case _ s hv =>
      split at h
      case _ hs => exact ⟨fkvs, s, heq, hv, hs, h⟩
      case _ => cases h
    case _ => cases h
  case _ => cases h

end FieldHelpers

section AllParsed

theorem fieldIntValParsed {entries : List (String × PyVal)} {code : String} {n : Int}
    (h : fieldIntVal entries code = some n) : fieldIntParsed entries code = some n := by
  obtain ⟨f, s, hl, hv, hs, hp⟩ := fieldIntValInv h
  unfold fieldIntParsed
  rw [hl]
  simp [hv, hp]

/-- Evaluation of the whole validator on a template whose six numeric fields
are present with `int()`-parseable string values: every pass completes and the
verdict is exactly the mismatch/negativity outcome of the arithmetic. -/
theorem validateAllParsed {kvs entries : List (String × PyVal)}
    (hdata : dictLookup kvs "data" = some (.dict entries))
    (hwf : ∀ p ∈ entries, ∃ fkvs, p.2 = PyVal.dict fkvs)
    {n010 n020 n030 n040 n070 n100 : Int}
    (h010 : fieldIntParsed entries "010" = some n010)
    (h020 : fieldIntParsed entries "020" = some n020)
    (h030 : fieldIntParsed entries "030" = some n030)
    (h040 : fieldIntParsed entries "040" = some n040)
    (h070 : fieldIntParsed entries "070" = some n070)
    (h100 : fieldIntParsed entries "100" = some n100) :
    COREPEngine.validate_response (.dict kvs) =
      .ok ⟨(if n010 + n020 + n030 + n040 - n070 ≠ n100
              then [mismatchMsg (n010 + n020 + n030 + n040 - n070) n100] else [])
            ++ (if n100 < 0 then [negMsg n100] else []),
           entries.filterMap pass2Gen,
           ((if n010 + n020 + n030 + n040 - n070 ≠ n100
              then [mismatchMsg (n010 + n020 + n030 + n040 - n070) n100] else [])
            ++ (if n100 < 0 then [negMsg n100] else [])).length == 0⟩ := by
  obtain ⟨f010, s010, hl010, hv010, hp010⟩ := fieldIntParsedInv h010
  obtain ⟨f020, s020, hl020, hv020, hp020⟩ := fieldIntParsedInv h020
  obtain ⟨f030, s030, hl030, hv030, hp030⟩ := fieldIntParsedInv h030
  obtain ⟨f040, s040, hl040, hv040, hp040⟩ := fieldIntParsedInv h040
  obtain ⟨f070, s070, hl070, hv070, hp070⟩ := fieldIntParsedInv h070
  obtain ⟨f100, s100, hl100, hv100, hp100⟩ := fieldIntParsedInv h100
  have hcr := checkRequiredAllPresent hdata COREPEngine.required_fields (by
    intro c hc
    simp only [COREPEngine.required_fields, List.mem_cons, List.not_mem_nil, or_false] at hc
    rcases hc with rfl | rfl | rfl | rfl
    · exact ⟨f010, hl010, by rw [hv010]; exact parseIntPyTruthy hp010⟩
    · exact ⟨f020, hl020, by rw [hv020]; exact parseIntPyTruthy hp020⟩
    · exact ⟨f030, hl030, by rw [hv030]; exact parseIntPyTruthy hp030⟩
    · exact ⟨f100, hl100, by rw [hv100]; exact parseIntPyTruthy hp100⟩)
  have c010 := fieldContribOfParse "010" hl010 hv010 hp010
  have c020 := fieldContribOfParse "020" hl020 hv020 hp020
  have c030 := fieldContribOfParse "030" hl030 hv030 hp030
  have c040 := fieldContribOfParse "040" hl040 hv040 hp040
  have c070 := fieldContribOfParse "070" hl070 hv070 hp070
  have hrep := reportedCet1OfParse hl100 hv100 hp100
  have hcomp : COREPEngine.componentsSum (.dict entries)
      = .ok (n010 + (n020 + (n030 + (n040 + 0)))) := by
    simp only [COREPEngine.componentsSum, COREPEngine.sumFields, c010, c020, c030, c040,
      exceptBindOk, pure, Except.pure]
  have hded : COREPEngine.deductionsSum (.dict entries) = .ok (n070 + 0) := by
    simp only [COREPEngine.deductionsSum, COREPEngine.sumFields, c070,
      exceptBindOk, pure, Except.pure]
  have harith : n010 + (n020 + (n030 + (n040 + 0))) - (n070 + 0)
      = n010 + n020 + n030 + n040 - n070 := by ring
  have hcb : COREPEngine.calcBlock (.dict kvs) =
      .ok ((if n010 + n020 + n030 + n040 - n070 ≠ n100
              then [mismatchMsg (n010 + n020 + n030 + n040 - n070) n100] else [])
            ++ (if n100 < 0 then [negMsg n100] else [])) := by
    unfold COREPEngine.calcBlock
    simp only [pyGetD, hdata, Option.getD_some, exceptBindOk, hcomp, hded, hrep,
      pure, Except.pure]
    rw [harith]
  have htc : COREPEngine.tryCalc (.dict kvs) =
      .ok ((if n010 + n020 + n030 + n040 - n070 ≠ n100
              then [mismatchMsg (n010 + n020 + n030 + n040 - n070) n100] else [])
            ++ (if n100 < 0 then [negMsg n100] else []), []) := by
    unfold COREPEngine.tryCalc
    rw [hcb]
  have hcn := checkNumericWf entries hwf
  unfold COREPEngine.validate_response
  rw [hcr]
  simp only [exceptBindOk, pyGetD, hdata, Option.getD_some, pyItems, hcn, htc,
    pure, Except.pure, List.nil_append, List.append_nil]

end AllParsed

/-- Data entries of the C2 counterexample: all six fields valid integer
strings, the reported total equals the signed sum, but that sum is negative. -/
def inC2data : List (String × PyVal) :=
  [("010", fld "0"), ("020", fld "0"), ("030", fld "0"),
   ("040", fld "0"), ("070", fld "5"), ("100", fld "-5")]

/-- The C2 counterexample template. -/
def inC2 : PyVal := .dict [("data", .dict inC2data)]

/-- C2 as written is false: with components 0,0,0,0, deduction 5 and reported
total -5 (which equals the signed sum exactly), the verdict is not valid and
the errors list is not empty — pass 4 emits "CET1 is negative: -5". -/
theorem claim_C2_counterexample :
    COREPEngine.validate_response inC2 =
      .ok ⟨["CET1 is negative: -5"], [], false⟩ := rfl

/-- C2 amended: if additionally the reported total is non-negative, then the
verdict is valid with an empty errors list. -/
theorem claim_C2_theorem (kvs entries : List (String × PyVal))
    (hdata : dictLookup kvs "data" = some (.dict entries))
    (hwfb : entries.all (fun p => isDictVal p.2) = true)
    (n010 n020 n030 n040 n070 n100 : Int)
    (h010 : fieldIntVal entries "010" = some n010)
    (h020 : fieldIntVal entries "020" = some n020)
    (h030 : fieldIntVal entries "030" = some n030)
    (h040 : fieldIntVal entries "040" = some n040)
    (h070 : fieldIntVal entries "070" = some n070)
    (h100 : fieldIntVal entries "100" = some n100)
    (hsum : n010 + n020 + n030 + n040 - n070 = n100)
    (hpos : 0 ≤ n100) :
    ∃ ws, COREPEngine.validate_response (.dict kvs) = .ok ⟨[], ws, true⟩ := by
  have h := validateAllParsed hdata (allDictVal hwfb)
    (fieldIntValParsed h010) (fieldIntValParsed h020) (fieldIntValParsed h030)
    (fieldIntValParsed h040) (fieldIntValParsed h070) (fieldIntValParsed h100)
  rw [hsum] at h
  refine ⟨entries.filterMap pass2Gen, ?_⟩
  simpa [lt_irrefl, not_lt.mpr hpos] using h

/-- Data entries of the standard fully-consistent scenario. -/
def in505data : List (String × PyVal) :=
  [("010", fld "150000000"), ("020", fld "75000000"), ("030", fld "300000000"),
   ("040", fld "25000000"), ("070", fld "45000000"), ("100", fld "505000000")]

/-- The standard fully-consistent template. -/
def in505 : PyVal := .dict [("data", .dict in505data)]

/-- Witness for C2 amended: the consistent 505,000,000 scenario validates with
no errors. -/
theorem claim_C2_witness :
    ∃ ws, COREPEngine.validate_response in505 = .ok ⟨[], ws, true⟩ :=
  claim_C2_theorem [("data", .dict in505data)] in505data rfl rfl
    150000000 75000000 300000000 25000000 45000000 505000000
    rfl rfl rfl rfl rfl rfl (by decide) (by decide)

/-- Data entries of the spec's mismatch scenario. -/
def inC4data : List (String × PyVal) :=
  [("010", fld "150000000"), ("020", fld "75000000"), ("030", fld "300000000"),
   ("040", fld "25000000"), ("070", fld "45000000"), ("100", fld "999")]

/-- The spec's mismatch scenario template. -/
def inC4 : PyVal := .dict [("data", .dict inC4data)]

/-- C4: whenever the six numeric fields hold parseable integer strings and the
signed sum differs from the reported total, the errors lead with the
comma-formatted mismatch message and the verdict is invalid; and on the spec's
concrete scenario the exact error is
"CET1 calculation mismatch: Calculated 505,000,000 vs Reported 999". -/
theorem claim_C4_theorem :
    (∀ (kvs entries : List (String × PyVal)),
      dictLookup kvs "data" = some (.dict entries) →
      entries.all (fun p => isDictVal p.2) = true →
      ∀ (n010 n020 n030 n040 n070 n100 : Int),
      fieldIntParsed entries "010" = some n010 →
      fieldIntParsed entries "020" = some n020 →
      fieldIntParsed entries "030" = some n030 →
      fieldIntParsed entries "040" = some n040 →
      fieldIntParsed entries "070" = some n070 →
      fieldIntParsed entries "100" = some n100 →
      n010 + n020 + n030 + n040 - n070 ≠ n100 →
      ∃ ws, COREPEngine.validate_response (.dict kvs) =
        .ok ⟨mismatchMsg (n010 + n020 + n030 + n040 - n070) n100
              :: (if n100 < 0 then [negMsg n100] else []), ws, false⟩) ∧
    COREPEngine.validate_response inC4 =
      .ok ⟨["CET1 calculation mismatch: Calculated 505,000,000 vs Reported 999"],
           [], false⟩ := by
  constructor
  · intro kvs entries hdata hwfb n010 n020 n030 n040 n070 n100
      h010 h020 h030 h040 h070 h100 hne
    have h := validateAllParsed hdata (allDictVal hwfb) h010 h020 h030 h040 h070 h100
    rw [if_pos hne] at h
    refine ⟨entries.filterMap pass2Gen, ?_⟩
    simpa using h
  · rfl

/-- Witness for C4 at a small mismatching template (components 1,1,1,0,
deduction 0, reported 999). -/
theorem claim_C4_witness :
    ∃ ws, COREPEngine.validate_response
        (.dict [("data", .dict [("010", fld "1"), ("020", fld "1"), ("030", fld "1"),
          ("040", fld "0"), ("070", fld "0"), ("100", fld "999")])]) =
      .ok ⟨[mismatchMsg 3 999], ws, false⟩ := by
  have h := claim_C4_theorem.1 [("data", .dict [("010", fld "1"), ("020", fld "1"),
      ("030", fld "1"), ("040", fld "0"), ("070", fld "0"), ("100", fld "999")])]
    [("010", fld "1"), ("020", fld "1"), ("030", fld "1"),
     ("040", fld "0"), ("070", fld "0"), ("100", fld "999")]
    rfl rfl 1 1 1 0 0 999 rfl rfl rfl rfl rfl rfl (by decide)
  simpa using h

/-- Data entries of the C7 counterexample: field 100 parses to -10 but field
010 is unparsable. -/
def inC7data : List (String × PyVal) :=
  [("010", fld "abc"), ("020", fld "1"), ("030", fld "1"), ("100", fld "-10")]

/-- The C7 counterexample template. -/
def inC7 : PyVal := .dict [("data", .dict inC7data)]

/-- C7 as written is false: here the calculated field 100 holds "-10", which
parses to a negative integer, yet the errors list does not contain
"CET1 is negative: -10" — it is empty, because the `ValueError` on field 010
aborts the whole arithmetic block before the negativity check runs. -/
theorem claim_C7_counterexample :
    fieldIntParsed inC7data "100" = some (-10) ∧
    COREPEngine.validate_response inC7 =
      .ok ⟨[], ["Non-numeric value in field 010: abc",
                "Calculation error: invalid literal for int() with base 10: 'abc'"],
           true⟩ :=
  ⟨rfl, rfl⟩

/-- C7 amended: provided the arithmetic block completes without a parse
failure (components, deduction and reported value all evaluate), a negative
reported total always contributes "CET1 is negative: <reported>" to the
errors of the returned verdict, independently of any mismatch error. -/
theorem claim_C7_theorem (kvs : List (String × PyVal)) (data : PyVal)
    (c dd r : Int) (v : Verdict)
    (hd : pyGetD (.dict kvs) "data" (.dict []) = .ok data)
    (hc : COREPEngine.componentsSum data = .ok c)
    (hx : COREPEngine.deductionsSum data = .ok dd)
    (hr : COREPEngine.reportedCet1 data = .ok r)
    (hneg : r < 0)
    (hv : COREPEngine.validate_response (.dict kvs) = .ok v) :
    negMsg r ∈ v.errors := by
  have hcb : COREPEngine.calcBlock (.dict kvs) =
      .ok ((if c - dd ≠ r then [mismatchMsg (c - dd) r] else []) ++ [negMsg r]) := by
    unfold COREPEngine.calcBlock
    simp only [hd, exceptBindOk, hc, hx, hr, pure, Except.pure, if_pos hneg]
  obtain ⟨e1, w1, d, items, w2, ce, cw, -, -, -, -, h5, hveq⟩ := validateDecomp hv
  unfold COREPEngine.tryCalc at h5
  rw [hcb] at h5
  simp only [Except.ok.injEq, Prod.mk.injEq] at h5
  subst hveq
  simp only [Verdict.mk.injEq]
  rw [List.mem_append, ← h5.1]
  right
  exact List.mem_append_right _ (by simp)

/-- Witness for C7 amended: matching components summing to -10 produce the
error "CET1 is negative: -10". -/
theorem claim_C7_witness :
    negMsg (-10) ∈ (Verdict.mk ["CET1 is negative: -10"] [] false).errors :=
  claim_C7_theorem
    [("data", .dict [("010", fld "-10"), ("020", fld "0"), ("030", fld "0"),
      ("100", fld "-10")])]
    (.dict [("010", fld "-10"), ("020", fld "0"), ("030", fld "0"),
      ("100", fld "-10")])
    (-10) 0 (-10) (Verdict.mk ["CET1 is negative: -10"] [] false)
    rfl rfl rfl rfl (by decide) rfl

/-- The C8 counterexample template: one field whose value "123\n" has a
trailing newline. -/
def inC8 : PyVal := .dict [("data", .dict [("050", fld "123\n")])]

/-- C8 as written is false: the value "123\n" is non-empty and does not match
the stated pattern (an optional minus sign followed by decimal digits only),
yet no "Non-numeric value in field 050: ..." warning is emitted — the
warnings list is empty — because Python's `$` also matches just before a
trailing newline. -/
theorem claim_C8_counterexample :
    specIntString "123\n" = false ∧ pyTruthy (.str "123\n") = true ∧
    COREPEngine.validate_response inC8 =
      .ok ⟨["Missing required field: 010", "Missing required field: 020",
            "Missing required field: 030", "Missing required field: 100"],
           [], false⟩ :=
  ⟨rfl, rfl, rfl⟩

/-- C8 amended: the code's pattern is Python's `^-?\d+$`, i.e. an optional
minus sign, one or more decimal digits, and optionally a single trailing
newline.  Every present field whose truthy value fails that pattern puts
"Non-numeric value in field <code>: <str(value)>" into the warnings, and
pass 2 contributes exactly the warnings generated field-by-field by this
rule (so a field whose value matches the pattern contributes none). -/
theorem claim_C8_theorem (kvs entries : List (String × PyVal)) (v : Verdict)
    (hdata : dictLookup kvs "data" = some (.dict entries))
    (hv : COREPEngine.validate_response (.dict kvs) = .ok v) :
    (∀ code fkvs, (code, PyVal.dict fkvs) ∈ entries →
      pyTruthy ((dictLookup fkvs "value").getD (.str "")) = true →
      matchesNumRe (pyStr ((dictLookup fkvs "value").getD (.str ""))) = false →
      nonNumMsg code (pyStr ((dictLookup fkvs "value").getD (.str ""))) ∈ v.warnings) ∧
    (∀ ws, COREPEngine.checkNumeric entries = .ok ws →
      ws = entries.filterMap pass2Gen) := by
  obtain ⟨e1, w1, d, items, w2, ce, cw, h1, h2, h3, h4, h5, hveq⟩ := validateDecomp hv
  have hd : PyVal.dict entries = d := by
    simpa [pyGetD, hdata] using h2
  subst hd
  have hitems : entries = items := by
    simpa [pyItems] using h3
  subst hitems
  constructor
  · intro code fkvs hmem htr hnm
    have hw2 := checkNumericSpec entries w2 h4
    have hgen : pass2Gen (code, PyVal.dict fkvs)
        = some (nonNumMsg code (pyStr ((dictLookup fkvs "value").getD (.str "")))) := by
      simp [pass2Gen, htr, hnm]
    have : nonNumMsg code (pyStr ((dictLookup fkvs "value").getD (.str ""))) ∈ w2 := by
      rw [hw2]
      exact List.mem_filterMap.mpr ⟨(code, PyVal.dict fkvs), hmem, hgen⟩
    subst hveq
    simp only [List.mem_append]
    exact Or.inl (Or.inr this)
  · exact fun ws hws => checkNumericSpec entries ws hws

/-- Witness for C8 amended: the non-numeric value "12x" in field 050
produces the corresponding warning. -/
theorem claim_C8_witness :
    nonNumMsg "050" "12x" ∈
      (Verdict.mk [] ["Non-numeric value in field 050: 12x"] true).warnings := by
  have h := (claim_C8_theorem
    [("data", .dict [("010", fld "1"), ("020", fld "1"), ("030", fld "1"),
      ("100", fld "3"), ("050", fld "12x")])]
    [("010", fld "1"), ("020", fld "1"), ("030", fld "1"),
      ("100", fld "3"), ("050", fld "12x")]
    (Verdict.mk [] ["Non-numeric value in field 050: 12x"] true)
    rfl rfl).1 "050" [("value", PyVal.str "12x")] (by simp [fld]) rfl rfl
  exact h

/-- C5: for a populated template, each absent required code contributes
exactly one "Missing required field: <code>" error; no such error ever
appears for a code outside the required list; and a required code that is
present with an empty (falsy) value gets the "Empty value for field: <code>"
warning and no missing-field error. -/
theorem claim_C5_theorem (kvs entries : List (String × PyVal)) (v : Verdict)
    (hdata : dictLookup kvs "data" = some (.dict entries))
    (hv : COREPEngine.validate_response (.dict kvs) = .ok v) :
    (∀ code ∈ COREPEngine.required_fields, memCode entries code = false →
      v.errors.count (missingMsg code) = 1) ∧
    (∀ c, c ∉ COREPEngine.required_fields → missingMsg c ∉ v.errors) ∧
    (∀ code ∈ COREPEngine.required_fields, memCode entries code = true →
      pyTruthy (entryValueD entries code) = false →
      emptyMsg code ∈ v.warnings ∧ missingMsg code ∉ v.errors) := by
  obtain ⟨e1, w1, d, items, w2, ce, cw, h1, h2, h3, h4, h5, hveq⟩ := validateDecomp hv
  obtain ⟨he1, hw1⟩ := checkRequiredSpec hdata COREPEngine.required_fields e1 w1 h1
  have hceShape := tryCalcErrShape h5
  have hMissNotCe : ∀ c, missingMsg c ∉ ce := by
    intro c hmem
    rcases hceShape _ hmem with ⟨a, b, hx⟩ | ⟨r, hx⟩
    · exact missingNeMismatch c a b hx
    · exact missingNeNeg c r hx
  subst hveq
  refine ⟨?_, ?_, ?_⟩
  · intro code hcode hm
    simp only [List.count_append]
    have hce0 : ce.count (missingMsg code) = 0 :=
      List.count_eq_zero.mpr (hMissNotCe code)
    have he1c : e1.count (missingMsg code) = 1 := by
      rw [he1, List.count_map_of_injective _ missingMsg missingMsgInj,
        List.count_filter (by simp [hm])]
      simp only [COREPEngine.required_fields, List.mem_cons, List.not_mem_nil,
        or_false] at hcode
      rcases hcode with rfl | rfl | rfl | rfl <;> rfl
    rw [hce0, he1c]
  · intro c hc hmem
    rcases List.mem_append.mp hmem with hx | hx
    · rw [he1] at hx
      obtain ⟨c', hc', heq⟩ := List.mem_map.mp hx
      have : c' = c := missingMsgInj heq
      subst this
      exact hc (List.mem_of_mem_filter hc')
    · exact hMissNotCe c hx
  · intro code hcode hm ht
    constructor
    · have : emptyMsg code ∈ w1 := by
        rw [hw1]
        refine List.mem_map.mpr ⟨code, ?_, rfl⟩
        exact List.mem_filter.mpr ⟨hcode, by simp [hm, ht]⟩
      simp only [List.mem_append]
      exact Or.inl (Or.inl this)
    · intro hmem
      rcases List.mem_append.mp hmem with hx | hx
      · rw [he1] at hx
        obtain ⟨c', hc', heq⟩ := List.mem_map.mp hx
        have hcc : c' = code := missingMsgInj heq
        subst hcc
        have := (List.mem_filter.mp hc').2
        rw [hm] at this
        simp at this
      · exact hMissNotCe code hx

/-- Witness for C5: a template missing field 020 and with field 010 present
but empty yields exactly one missing-020 error and the empty-010 warning. -/
theorem claim_C5_witness :
    (Verdict.mk ["Missing required field: 020",
        "CET1 calculation mismatch: Calculated 1 vs Reported 0"]
        ["Empty value for field: 010"] false).errors.count (missingMsg "020") = 1 :=
  (claim_C5_theorem
    [("data", .dict [("010", fld ""), ("030", fld "1"), ("100", fld "0")])]
    [("010", fld ""), ("030", fld "1"), ("100", fld "0")]
    (Verdict.mk ["Missing required field: 020",
        "CET1 calculation mismatch: Calculated 1 vs Reported 0"]
        ["Empty value for field: 010"] false)
    rfl rfl).1 "020" (by decide) rfl

theorem pass2GenShape {p : String × PyVal} {msg : String}
    (h : pass2Gen p = some msg) : ∃ a b, msg = nonNumMsg a b := by
  unfold pass2Gen at h
  split at h
  · split at h
    · exact ⟨_, _, (Option.some.inj h).symm⟩
    · cases h
  · cases h

/-- C9: a required field present with the JSON number 0 is treated as empty —
it gets the "Empty value" warning, is exempt from the numeric-format check,
and contributes 0 to the pass-3 arithmetic — whereas the same field holding
the string "0" gets no warning at all and likewise contributes 0. -/
theorem claim_C9_theorem :
    (∀ (kvs entries fkvs : List (String × PyVal)) (code : String) (v : Verdict),
      dictLookup kvs "data" = some (.dict entries) →
      code ∈ COREPEngine.required_fields →
      dictLookup entries code = some (.dict fkvs) →
      dictLookup fkvs "value" = some (.int 0) →
      COREPEngine.validate_response (.dict kvs) = .ok v →
      emptyMsg code ∈ v.warnings ∧
      pass2Gen (code, .dict fkvs) = none ∧
      COREPEngine.fieldContrib (.dict entries) code = .ok 0) ∧
    (∀ (kvs entries fkvs : List (String × PyVal)) (code : String) (v : Verdict),
      dictLookup kvs "data" = some (.dict entries) →
      code ∈ COREPEngine.required_fields →
      dictLookup entries code = some (.dict fkvs) →
      dictLookup fkvs "value" = some (.str "0") →
      COREPEngine.validate_response (.dict kvs) = .ok v →
      emptyMsg code ∉ v.warnings ∧
      pass2Gen (code, .dict fkvs) = none ∧
      COREPEngine.fieldContrib (.dict entries) code = .ok 0) := by
  constructor
  · intro kvs entries fkvs code v hdata hcode hl hval hv
    obtain ⟨e1, w1, d, items, w2, ce, cw, h1, h2, h3, h4, h5, hveq⟩ := validateDecomp hv
    obtain ⟨-, hw1⟩ := checkRequiredSpec hdata COREPEngine.required_fields e1 w1 h1
    have hev : entryValueD entries code = PyVal.int 0 := by
      simp [entryValueD, hl, hval]
    refine ⟨?_, ?_, ?_⟩
    · have : emptyMsg code ∈ w1 := by
        rw [hw1]
        refine List.mem_map.mpr ⟨code, ?_, rfl⟩
        refine List.mem_filter.mpr ⟨hcode, ?_⟩
        simp [memCode, dictLookupMemCode hl, hev, pyTruthy]
      subst hveq
      simp only [List.mem_append]
      exact Or.inl (Or.inl this)
    · simp [pass2Gen, hval, pyTruthy]
    · unfold COREPEngine.fieldContrib
      simp only [pyContains, exceptBindOk]
      rw [show (entries.any fun kv => kv.1 == code) = true from dictLookupMemCode hl]
      simp [pyIndex, hl, pyGetD, hval, pyTruthy, pure, Except.pure]
  · intro kvs entries fkvs code v hdata hcode hl hval hv
    obtain ⟨e1, w1, d, items, w2, ce, cw, h1, h2, h3, h4, h5, hveq⟩ := validateDecomp hv
    obtain ⟨-, hw1⟩ := checkRequiredSpec hdata COREPEngine.required_fields e1 w1 h1
    have hd : PyVal.dict entries = d := by
      simpa [pyGetD, hdata] using h2
    subst hd
    have hitems : entries = items := by
      simpa [pyItems] using h3
    subst hitems
    have hev : entryValueD entries code = PyVal.str "0" := by
      simp [entryValueD, hl, hval]
    refine ⟨?_, ?_, ?_⟩
    · intro hmem
      subst hveq
      rcases List.mem_append.mp hmem with hx | hx
      · rcases List.mem_append.mp hx with hy | hy
        · rw [hw1] at hy
          obtain ⟨c', hc', heq⟩ := List.mem_map.mp hy
          have hcc : c' = code := emptyMsgInj heq
          subst hcc
          have := (List.mem_filter.mp hc').2
          rw [hev] at this
          simp [pyTruthy] at this
          exact absurd this.2 (by decide)
        · have hw2 := checkNumericSpec entries w2 h4
          rw [hw2] at hy
          obtain ⟨p, -, hgen⟩ := List.mem_filterMap.mp hy
          obtain ⟨a, b, hab⟩ := pass2GenShape hgen
          exact emptyNeNonNum code a b hab
      · rcases tryCalcWarnShape h5 with hcw | ⟨m, hcw⟩
        · rw [hcw] at hx
          cases hx
        · rw [hcw] at hx
          rcases List.mem_singleton.mp hx with hcm
          exact emptyNeCalcWarn code m hcm
    · simp [pass2Gen, hval, pyTruthy, matchesNumRe, pyStr, isPyDigit]
    · unfold COREPEngine.fieldContrib
      simp only [pyContains, exceptBindOk]
      rw [show (entries.any fun kv => kv.1 == code) = true from dictLookupMemCode hl]
      simp [pyIndex, hl, pyGetD, hval, pyTruthy, pyInt, parseIntPy, parseUnsigned,
        isPySpace, isPyDigit, digitsVal, pure, Except.pure]

/-- Witness for C9: field 010 holding the number 0 yields the empty-value
warning, no numeric-format warning, and a zero contribution. -/
theorem claim_C9_witness :
    emptyMsg "010" ∈ (Verdict.mk [] ["Empty value for field: 010"] true).warnings ∧
    pass2Gen ("010", .dict [("value", PyVal.int 0)]) = none ∧
    COREPEngine.fieldContrib
      (.dict [("010", .dict [("value", PyVal.int 0)]), ("020", fld "0"),
        ("030", fld "0"), ("100", fld "0")]) "010" = .ok 0 :=
  claim_C9_theorem.1
    [("data", .dict [("010", .dict [("value", PyVal.int 0)]), ("020", fld "0"),
      ("030", fld "0"), ("100", fld "0")])]
    [("010", .dict [("value", PyVal.int 0)]), ("020", fld "0"),
      ("030", fld "0"), ("100", fld "0")]
    [("value", PyVal.int 0)] "010"
    (Verdict.mk [] ["Empty value for field: 010"] true)
    rfl (by decide) rfl rfl rfl
